import Mathlib

/-!
Shallow embedding of the basic-datalab subsystem of IntelligentHR:
the file staging buffer, the Pyodide runtime bridge, and the execution
coordinator from
`frontend/src/hooks/features/basic-datalab/useBasicDatalab.ts` together
with the dtype-inference service from
`frontend/src/services/table-manager.ts` (the `basicDatalabApi.inferDtypes`
function).

JavaScript records (plain objects used as string-keyed maps) are embedded
as association lists with in-place overwrite (`setKey`), matching JS
property-assignment semantics: assigning an existing key keeps its
position and replaces its value; a new key is appended.
-/

namespace Datalab

/-- In-place overwrite on an association list, modelling JS object
property assignment: an existing key keeps its position, a new key is
appended. -/
def setKey {α : Type} : List (String × α) → String → α → List (String × α)
  | [], k, v => [(k, v)]
  | (k1, v1) :: rest, k, v =>
      if k1 = k then (k, v) :: rest else (k1, v1) :: setKey rest k v

/-- Lookup in an association list (first match). -/
def lookupKey {α : Type} : List (String × α) → String → Option α
  | [], _ => none
  | (k1, v1) :: rest, k => if k1 = k then some v1 else lookupKey rest k

/-- Key membership in an association list. -/
def hasKey {α : Type} (l : List (String × α)) (k : String) : Bool :=
  l.any (fun p => p.1 = k)

/-- Remove every entry with the given key (models `FS.unlink` deleting the
file node; keys are unique in practice). -/
def eraseKey {α : Type} (l : List (String × α)) (k : String) : List (String × α) :=
  l.filter (fun p => p.1 != k)

/-! ### JS string primitives used by the source

These are written over `List Char` so that concrete runs reduce inside
the kernel (`decide` / `rfl`). -/

/-- Models JS `String.prototype.toLowerCase` on the ASCII strings the
source compares against. -/
def lowerStr (s : String) : String := String.mk (s.data.map Char.toLower)

/-- Models JS `String.prototype.endsWith`. -/
def endsWithStr (s suf : String) : Bool :=
  List.isSuffixOf suf.data s.data

/-- Models JS `String.prototype.trim`: strip leading and trailing
whitespace (space, tab, CR, LF — in particular the CR left by a CRLF
line ending). -/
def jsTrim (s : String) : String :=
  String.mk (((s.data.dropWhile Char.isWhitespace).reverse.dropWhile
    Char.isWhitespace).reverse)

/-- Split on a single separator character, JS
`String.prototype.split(sep)` for a one-character separator. -/
def splitCharAux (sep : Char) : List Char → List Char → List String
  | [], acc => [String.mk acc.reverse]
  | c :: rest, acc =>
      if c = sep then String.mk acc.reverse :: splitCharAux sep rest []
      else splitCharAux sep rest (c :: acc)

def splitChar (sep : Char) (s : String) : List String :=
  splitCharAux sep s.data []

/-- Models JS `String.prototype.includes` for a one-character needle
(`value.includes('.')` in the source). -/
def containsChar (s : String) (c : Char) : Bool := s.data.contains c

/-- The first `n` UTF-16-ish units of a string, modelling
`file.slice(0, 8192)` read as text. -/
def takeStr (n : Nat) (s : String) : String := String.mk (s.data.take n)

/-! ### `Number(value)` — the numeric-parse test of `inferDtypes`

`table-manager.ts` line 241 tests `!isNaN(Number(value))` on an
already-trimmed cell. The following recognises exactly the strings for
which JS `Number` yields a non-NaN value: the empty string (`Number('')`
is `0`), signed `Infinity`, `0x`/`0o`/`0b` radix literals, and signed
decimal literals with optional fraction and exponent. -/

def isHexDigitChar (c : Char) : Bool :=
  c.isDigit || (('a' ≤ c) && (c ≤ 'f')) || (('A' ≤ c) && (c ≤ 'F'))

def isOctDigitChar (c : Char) : Bool := ('0' ≤ c) && (c ≤ '7')

def isBinDigitChar (c : Char) : Bool := (c = '0') || (c = '1')

/-- Accepts an optional exponent part: empty, or `e`/`E`, optional sign,
one or more digits. -/
def expOk : List Char → Bool
  | [] => true
  | c :: rest =>
      if c = 'e' || c = 'E' then
        let digits :=
          match rest with
          | s :: t => if s = '+' || s = '-' then t else rest
          | [] => rest
        (!digits.isEmpty) && digits.all Char.isDigit
      else false

/-- Accepts `digits [. digits] [exp]` or `. digits [exp]` (at least one
digit in the significand). -/
def decMantissa (l : List Char) : Bool :=
  let intPart := l.takeWhile Char.isDigit
  let rest := l.dropWhile Char.isDigit
  match rest with
  | '.' :: frac =>
      let fracPart := frac.takeWhile Char.isDigit
      let rest2 := frac.dropWhile Char.isDigit
      ((!intPart.isEmpty) || (!fracPart.isEmpty)) && expOk rest2
  | _ => (!intPart.isEmpty) && expOk rest

/-- Decimal literal with optional leading sign. -/
def signedDec : List Char → Bool
  | [] => false
  | c :: rest =>
      if c = '+' || c = '-' then decMantissa rest else decMantissa (c :: rest)

/-- The test `jsNumeric v` models `!isNaN(Number(v))` for a
whitespace-trimmed `v`. -/
def jsNumeric (v : String) : Bool :=
  if v = "" then true
  else if v = "Infinity" || v = "+Infinity" || v = "-Infinity" then true
  else
    match v.data with
    | '0' :: x :: rest =>
        if x = 'x' || x = 'X' then (!rest.isEmpty) && rest.all isHexDigitChar
        else if x = 'o' || x = 'O' then (!rest.isEmpty) && rest.all isOctDigitChar
        else if x = 'b' || x = 'B' then (!rest.isEmpty) && rest.all isBinDigitChar
        else signedDec ('0' :: x :: rest)
    | l => signedDec l

/-! ### Column-type inference (`basicDatalabApi.inferDtypes`) -/

/-- One column's classification, `table-manager.ts` lines 240-251:
numeric parse without a `.` → `int64`, with a `.` → `float64`,
case-insensitive `true`/`false` → `bool`, else `string`. -/
def classify (value : String) : String :=
  if jsNumeric value then
    if containsChar value '.' then "float64" else "int64"
  else if lowerStr value = "true" || lowerStr value = "false" then "bool"
  else "string"

/-- The `headers.forEach` loop: walks headers against the sample row by
index, assigning into the `dtypes` record. A header with no sample cell
reproduces the JS `TypeError` from `undefined.toLowerCase()`. -/
def inferColumns : List String → List String → List (String × String) →
    Except String (List (String × String))
  | [], _, acc => Except.ok acc
  | _ :: _, [], _ => Except.error "TypeError"
  | h :: hs, v :: vs, acc => inferColumns hs vs (setKey acc h (classify v))

/-- Models `basicDatalabApi.inferDtypes` applied to the sampled text prefix:
split into lines, drop blank lines, require a header line plus one sample
row, trim the comma-separated cells, classify each column. -/
def inferDtypes (firstChunk : String) : Except String (List (String × String)) :=
  let lines := (splitChar '\n' firstChunk).filter (fun l => jsTrim l ≠ "")
  if lines.length < 2 then Except.error "文件格式错误或为空"
  else
    let headers := (splitChar ',' ((lines.get? 0).getD "")).map jsTrim
    let sampleData := (splitChar ',' ((lines.get? 1).getD "")).map jsTrim
    inferColumns headers sampleData []

/-- The whole service call on a file's content: only the first 8 KB are
read (`file.slice(0, 8192)`), then `inferDtypes` runs on that prefix. -/
def inferDtypesOfFile (content : String) : Except String (List (String × String)) :=
  inferDtypes (takeStr 8192 content)

/-! ### The Pyodide runtime

`window.pyodide` carries the MEMFS file namespace, the `sys.stdout` /
`sys.stderr` targets, the `_stdout` / `_stderr` Python globals saved by
the capture preamble, and matplotlib's open-figure registry
(`plt.get_fignums()`). A stream target is either the original stream or
the capturing `io.StringIO` buffer installed by the preamble. -/

inductive Sink where
  | original : Sink
  | buffer : Sink
deriving DecidableEq, Repr

structure Runtime where
  fs : List (String × String)
  stdoutSink : Sink
  stderrSink : Sink
  savedStdout : Option Sink
  savedStderr : Option Sink
  capturedOut : String
  capturedErr : String
  consoleOut : String
  consoleErr : String
  figs : List Nat
deriving DecidableEq, Repr

/-- A fresh Pyodide instance right after `loadPyodide` and the fixed
initialisation preamble: empty user file namespace, streams at their
original targets, no figure open. -/
def initRuntime : Runtime :=
  { fs := [], stdoutSink := Sink.original, stderrSink := Sink.original,
    savedStdout := none, savedStderr := none,
    capturedOut := "", capturedErr := "",
    consoleOut := "", consoleErr := "", figs := [] }

/-- The capture preamble (`useBasicDatalab.ts` lines 278-285):
`_stdout = sys.stdout; _stderr = sys.stderr;
sys.stdout = io.StringIO(); sys.stderr = io.StringIO()`. -/
def redirectStdio (rt : Runtime) : Runtime :=
  { rt with
    savedStdout := some rt.stdoutSink, savedStderr := some rt.stderrSink,
    stdoutSink := Sink.buffer, stderrSink := Sink.buffer,
    capturedOut := "", capturedErr := "" }

/-- The `finally` block (lines 341-344): `sys.stdout = _stdout;
sys.stderr = _stderr`. -/
def restoreStdio (rt : Runtime) : Runtime :=
  { rt with
    stdoutSink := rt.savedStdout.getD rt.stdoutSink,
    stderrSink := rt.savedStderr.getD rt.stderrSink }

/-! ### Planner code as an observable behaviour

The planner's generated Python is untrusted; we model one run of it by
the list of runtime effects it performs before either completing or
raising. Writes to `sys.stdout` land wherever the stream currently
points — on the capturing buffer during an execution. -/

inductive Effect where
  | print : String → Effect
  | printErr : String → Effect
  | plot : Nat → Effect
  | writeFile : String → String → Effect
deriving DecidableEq, Repr

def applyEffect (rt : Runtime) : Effect → Runtime
  | Effect.print s =>
      match rt.stdoutSink with
      | Sink.buffer => { rt with capturedOut := rt.capturedOut ++ s }
      | Sink.original => { rt with consoleOut := rt.consoleOut ++ s }
  | Effect.printErr s =>
      match rt.stderrSink with
      | Sink.buffer => { rt with capturedErr := rt.capturedErr ++ s }
      | Sink.original => { rt with consoleErr := rt.consoleErr ++ s }
  | Effect.plot n => { rt with figs := rt.figs ++ [n] }
  | Effect.writeFile name content => { rt with fs := setKey rt.fs name content }

def applyEffects (rt : Runtime) (l : List Effect) : Runtime :=
  l.foldl applyEffect rt

/-- One run of a piece of generated code: the effects it performs, then
either completion (`raises = none`) or an exception with its message. -/
structure CodeBehavior where
  effects : List Effect
  raises : Option String
deriving DecidableEq, Repr

/-! ### Result and coordinator state, mirroring the TS types -/

inductive Status where
  | success : Status
  | error : Status
  | need_more_info : Status
  | out_of_scope : Status
deriving DecidableEq, Repr

structure OutputFile where
  filename : String
  content : String
  size : Nat
deriving DecidableEq, Repr

structure AnalysisResult where
  status : Status
  output : Option String
  error : Option String
  chartData : Option String
  message : Option String
  outputFile : Option OutputFile
deriving DecidableEq, Repr

structure UploadedFileInfo where
  name : String
  size : Nat
  mime : String
  dtypes : List (String × String)
  uploadedAt : Nat
deriving DecidableEq, Repr

/-- The hook's state: `window.pyodide` (present once `loadPyodide`
resolved), the `uploadedFiles` list, the `pendingFiles.current` keyed
record, the readiness flag and the live result. -/
structure AppState where
  pyodide : Option Runtime
  pyodideReady : Bool
  uploadedFiles : List UploadedFileInfo
  pendingFiles : List (String × String)
  analysisResult : Option AnalysisResult
deriving DecidableEq, Repr

def initState : AppState :=
  { pyodide := none, pyodideReady := false, uploadedFiles := [],
    pendingFiles := [], analysisResult := none }

/-! ### Runtime initialisation (`initializePyodide`, lines 53-118)

If `window.pyodide` is already set, only the readiness flag flips.
Otherwise a fresh instance is created and every `pendingFiles.current`
entry is written into MEMFS with `FS.writeFile`, after which the pending
record is cleared and readiness flips. -/

def finishInitialize (st : AppState) : AppState :=
  match st.pyodide with
  | some _ => { st with pyodideReady := true }
  | none =>
      let rt := st.pendingFiles.foldl
        (fun rt p => { rt with fs := setKey rt.fs p.1 p.2 }) initRuntime
      { st with pyodide := some rt, pendingFiles := [], pyodideReady := true }

/-! ### File upload (`handleFileUpload`, lines 128-187) -/

structure FileModel where
  name : String
  size : Nat
  mime : String
  content : String
deriving DecidableEq, Repr

/-- One iteration of the upload loop: extension check, size check, dtype
inference (each of which throws out of the loop), then the bytes go to
MEMFS when `window.pyodide` exists, else into the pending record. -/
def uploadOne (now : Nat) (f : FileModel) (st : AppState) :
    Except String (AppState × UploadedFileInfo) :=
  if !(endsWithStr (lowerStr f.name) ".csv") then
    Except.error "只支持CSV文件格式"
  else if f.size > 10 * 1024 * 1024 then
    Except.error "文件大小不能超过10MB"
  else
    match inferDtypesOfFile f.content with
    | Except.error e => Except.error e
    | Except.ok dtypes =>
        let st1 :=
          match st.pyodide with
          | some rt => { st with pyodide := some { rt with fs := setKey rt.fs f.name f.content } }
          | none => { st with pendingFiles := setKey st.pendingFiles f.name f.content }
        Except.ok (st1,
          { name := f.name, size := f.size, mime := f.mime,
            dtypes := dtypes, uploadedAt := now })

/-- The loop over the `FileList` plus the trailing
`setUploadedFiles(prev => [...prev, ...newFiles])`. A throw aborts the
loop: filesystem/pending mutations already performed stay (they were
direct side effects), but `newFiles` is discarded and `uploadedFiles`
is left unchanged. Returns the resulting state and the error toast
description when the catch block ran. -/
def uploadLoop (now : Nat) : List FileModel → AppState → List UploadedFileInfo →
    AppState × Option String
  | [], st, acc => ({ st with uploadedFiles := st.uploadedFiles ++ acc }, none)
  | f :: rest, st, acc =>
      match uploadOne now f st with
      | Except.ok (st1, info) => uploadLoop now rest st1 (acc ++ [info])
      | Except.error e => (st, some e)

def handleFileUpload (now : Nat) (files : List FileModel) (st : AppState) :
    AppState × Option String :=
  uploadLoop now files st []

/-! ### File deletion (`handleFileDelete`, lines 190-204)

When `window.pyodide.FS` exists, `FS.unlink(fileName)` runs first; on a
missing file it throws `ENOENT`, the catch block fires, and the
`setUploadedFiles` filter is never reached. The pending record is never
touched. -/

def handleFileDelete (name : String) (st : AppState) : AppState :=
  match st.pyodide with
  | some rt =>
      if hasKey rt.fs name then
        { st with
          pyodide := some { rt with fs := eraseKey rt.fs name },
          uploadedFiles := st.uploadedFiles.filter (fun f => f.name != name) }
      else st
  | none =>
      { st with uploadedFiles := st.uploadedFiles.filter (fun f => f.name != name) }

/-! ### The execution phase (`executeAnalysis` lines 271-345)

The inner try/catch/finally around the generated code: redirect stdio,
run the code, on completion read both capture buffers, query the figure
registry (render the current figure and `plt.close('all')` when any is
open), read back the declared output file (a missing file degrades to a
warning appended to the output text), and in the `finally` block restore
stdio unconditionally. On a throw from the code, the catch block
assembles an error result from the local `output` variable — which still
holds its initial `''`, since the `getvalue()` reads sit after the code
call. -/

def renderFig (n : Nat) : String := "png-base64-fig-" ++ toString n

def figureStep (rt : Runtime) : Option String × Runtime :=
  if rt.figs.isEmpty then (none, rt)
  else (some (renderFig ((rt.figs.getLast?).getD 0)), { rt with figs := [] })

def outputFileStep (fname : Option String) (rt : Runtime) (output : String) :
    String × Option OutputFile :=
  match fname with
  | none => (output, none)
  | some n =>
      match lookupKey rt.fs n with
      | some c => (output, some { filename := n, content := c, size := c.data.length })
      | none => (output ++ "\n读取输出文件失败", none)

def executePhase (bhv : CodeBehavior) (fname : Option String) (rt : Runtime) :
    AnalysisResult × Runtime :=
  let rt1 := redirectStdio rt
  let rt2 := applyEffects rt1 bhv.effects
  match bhv.raises with
  | some msg =>
      ({ status := Status.error, output := some "", error := some msg,
         chartData := none, message := none, outputFile := none },
       restoreStdio rt2)
  | none =>
      let out := rt2.capturedOut ++ rt2.capturedErr
      let chartAnd := figureStep rt2
      let outAnd := outputFileStep fname chartAnd.2 out
      ({ status := Status.success, output := some outAnd.1, error := none,
         chartData := chartAnd.1, message := none, outputFile := outAnd.2 },
       restoreStdio chartAnd.2)

/-! ### The coordinator (`executeAnalysis`, lines 207-356) -/

inductive NextStep where
  | need_more_info : NextStep
  | execute_command : NextStep
  | out_of_scope : NextStep
deriving DecidableEq, Repr

structure PythonCommand where
  code : String
  output_filename : Option String
deriving DecidableEq, Repr

structure AssistantResponse where
  next_step : NextStep
  command : Option PythonCommand
  message : String
deriving DecidableEq, Repr

/-- The planner HTTP call's outcome: payload, or an error detail
(`response.error.detail`). -/
inductive ApiResponse where
  | ok : AssistantResponse → ApiResponse
  | err : String → ApiResponse
deriving DecidableEq, Repr

/-- Observables of one `executeAnalysis` call: whether the planner API
was invoked and whether generated code was run. -/
structure ExecTrace where
  plannerCalled : Bool
  codeRan : Bool
deriving DecidableEq, Repr

def mkErrorResult (e : String) : AnalysisResult :=
  { status := Status.error, output := none, error := some e,
    chartData := none, message := none, outputFile := none }

def mkMessageResult (s : Status) (m : String) : AnalysisResult :=
  { status := s, output := none, error := none,
    chartData := none, message := some m, outputFile := none }

/-- The branch on the planner's verdict (`executeAnalysis` lines
249-345), given the state with the live result already cleared and the
runtime instance. -/
def runVerdict (bhvOf : String → CodeBehavior) (result : AssistantResponse)
    (st0 : AppState) (rt : Runtime) : AppState × ExecTrace :=
  match result.next_step with
  | NextStep.need_more_info =>
      let r := mkMessageResult Status.need_more_info result.message
      ({ st0 with analysisResult := some r },
       { plannerCalled := true, codeRan := false })
  | NextStep.out_of_scope =>
      let r := mkMessageResult Status.out_of_scope result.message
      ({ st0 with analysisResult := some r },
       { plannerCalled := true, codeRan := false })
  | NextStep.execute_command =>
      match result.command with
      | none =>
          let r := mkErrorResult "系统无法生成分析代码"
          ({ st0 with analysisResult := some r },
           { plannerCalled := true, codeRan := false })
      | some cmd =>
          if cmd.code = "" then
            let r := mkErrorResult "系统无法生成分析代码"
            ({ st0 with analysisResult := some r },
             { plannerCalled := true, codeRan := false })
          else
            let resultAnd := executePhase (bhvOf cmd.code) cmd.output_filename rt
            let st1 := { st0 with pyodide := some resultAnd.2 }
            ({ st1 with analysisResult := some resultAnd.1 },
             { plannerCalled := true, codeRan := true })

/-- Models `executeAnalysis(userInput)`: precondition checks (`window.pyodide`
set, at least one uploaded file) fail fast with a toast and no state
change; then the live result is cleared, the planner is called, and the
coordinator branches on the verdict. `bhvOf` gives the observable
behaviour of a code string when Pyodide runs it. -/
def executeAnalysis (bhvOf : String → CodeBehavior) (resp : ApiResponse)
    (st : AppState) : AppState × ExecTrace :=
  match st.pyodide with
  | none => (st, { plannerCalled := false, codeRan := false })
  | some rt =>
      if st.uploadedFiles.isEmpty then
        (st, { plannerCalled := false, codeRan := false })
      else
        let st0 := { st with analysisResult := none }
        match resp with
        | ApiResponse.err d =>
            ({ st0 with analysisResult := some (mkErrorResult d) },
             { plannerCalled := true, codeRan := false })
        | ApiResponse.ok result => runVerdict bhvOf result st0 rt

/-! ### Shared concrete fixtures used by the witnesses -/

def csvFile : FileModel :=
  { name := "a.csv", size := 20, mime := "text/csv", content := "city,age\nBeijing,30" }

def csvInfo : UploadedFileInfo :=
  { name := "a.csv", size := 20, mime := "text/csv",
    dtypes := [("city", "string"), ("age", "int64")], uploadedAt := 0 }

/-- A state whose runtime is up and which has one accepted file. -/
def readyState : AppState :=
  { pyodide := some initRuntime, pyodideReady := true,
    uploadedFiles := [csvInfo], pendingFiles := [], analysisResult := none }

/-- A planner verdict carrying non-empty code. -/
def execResponse : AssistantResponse :=
  { next_step := NextStep.execute_command,
    command := some { code := "print(1)", output_filename := none },
    message := "" }

/-- A code behaviour that prints and then raises. -/
def raisingBhv : CodeBehavior :=
  { effects := [Effect.print "x"], raises := some "boom" }

/-- A code behaviour that prints and completes. -/
def okBhv : CodeBehavior :=
  { effects := [Effect.print "ok"], raises := none }

/-- A ready runtime with no uploaded file registered yet. -/
def readyEmptyState : AppState :=
  { pyodide := some initRuntime, pyodideReady := true,
    uploadedFiles := [], pendingFiles := [], analysisResult := none }

/-- An upload with a non-CSV extension. -/
def badTxt : FileModel :=
  { name := "bad.txt", size := 5, mime := "text/plain", content := "x" }

/-- A CSV upload whose first 8 KB hold only one non-blank line. -/
def headerOnlyCsv : FileModel :=
  { name := "empty.csv", size := 10, mime := "text/csv", content := "onlyheader" }

/-- A planner verdict asking for more information. -/
def infoResponse : AssistantResponse :=
  { next_step := NextStep.need_more_info, command := none, message := "需要更多信息" }

/-! ### Preservation lemmas about the runtime operations -/

theorem applyEffect_savedStdout (rt : Runtime) (e : Effect) :
    (applyEffect rt e).savedStdout = rt.savedStdout := by
  cases e with
  | print s => cases h : rt.stdoutSink <;> simp [applyEffect, h]
  | printErr s => cases h : rt.stderrSink <;> simp [applyEffect, h]
  | plot n => rfl
  | writeFile name content => rfl

theorem applyEffect_savedStderr (rt : Runtime) (e : Effect) :
    (applyEffect rt e).savedStderr = rt.savedStderr := by
  cases e with
  | print s => cases h : rt.stdoutSink <;> simp [applyEffect, h]
  | printErr s => cases h : rt.stderrSink <;> simp [applyEffect, h]
  | plot n => rfl
  | writeFile name content => rfl

theorem applyEffects_savedStdout (l : List Effect) (rt : Runtime) :
    (applyEffects rt l).savedStdout = rt.savedStdout := by
  induction l generalizing rt with
  | nil => rfl
  | cons e t ih =>
      show (applyEffects (applyEffect rt e) t).savedStdout = rt.savedStdout
      rw [ih, applyEffect_savedStdout]

theorem applyEffects_savedStderr (l : List Effect) (rt : Runtime) :
    (applyEffects rt l).savedStderr = rt.savedStderr := by
  induction l generalizing rt with
  | nil => rfl
  | cons e t ih =>
      show (applyEffects (applyEffect rt e) t).savedStderr = rt.savedStderr
      rw [ih, applyEffect_savedStderr]

theorem figureStep_savedStdout (rt : Runtime) :
    (figureStep rt).2.savedStdout = rt.savedStdout := by
  unfold figureStep; split <;> rfl

theorem figureStep_savedStderr (rt : Runtime) :
    (figureStep rt).2.savedStderr = rt.savedStderr := by
  unfold figureStep; split <;> rfl

theorem figureStep_fs (rt : Runtime) : (figureStep rt).2.fs = rt.fs := by
  unfold figureStep; split <;> rfl

theorem restoreStdio_figs (rt : Runtime) : (restoreStdio rt).figs = rt.figs := rfl

/-- After both branches of the inner try/catch/finally, the stream
targets are back at their pre-execution values. -/
theorem executePhase_stdoutSink (bhv : CodeBehavior) (fname : Option String)
    (rt : Runtime) : (executePhase bhv fname rt).2.stdoutSink = rt.stdoutSink := by
  unfold executePhase
  cases h : bhv.raises with
  | some msg =>
      simp [restoreStdio, applyEffects_savedStdout, redirectStdio]
  | none =>
      simp [restoreStdio, figureStep_savedStdout, applyEffects_savedStdout,
        redirectStdio]

theorem executePhase_stderrSink (bhv : CodeBehavior) (fname : Option String)
    (rt : Runtime) : (executePhase bhv fname rt).2.stderrSink = rt.stderrSink := by
  unfold executePhase
  cases h : bhv.raises with
  | some msg =>
      simp [restoreStdio, applyEffects_savedStderr, redirectStdio]
  | none =>
      simp [restoreStdio, figureStep_savedStderr, applyEffects_savedStderr,
        redirectStdio]

/-! ### Lemmas about uploads -/

/-- A successful iteration of the upload loop never touches
`uploadedFiles` (the registration happens in one batch at the end). -/
theorem uploadOne_uploadedFiles (now : Nat) (f : FileModel) (st st1 : AppState)
    (info : UploadedFileInfo) (h : uploadOne now f st = Except.ok (st1, info)) :
    st1.uploadedFiles = st.uploadedFiles := by
  unfold uploadOne at h
  split at h
  · cases h
  · split at h
    · cases h
    · split at h
      · cases h
      · cases hp : st.pyodide with
        | none => rw [hp] at h; cases h; rfl
        | some rt => rw [hp] at h; cases h; rfl

/-- A failing upload call leaves `uploadedFiles` unchanged: the throw
skips `setUploadedFiles`. -/
theorem uploadLoop_error_uploadedFiles (now : Nat) (files : List FileModel)
    (st : AppState) (acc : List UploadedFileInfo) (e : String)
    (h : (uploadLoop now files st acc).2 = some e) :
    (uploadLoop now files st acc).1.uploadedFiles = st.uploadedFiles := by
  induction files generalizing st acc with
  | nil => simp [uploadLoop] at h
  | cons f rest ih =>
      unfold uploadLoop at h ⊢
      cases hu : uploadOne now f st with
      | ok p =>
          rw [hu] at h
          obtain ⟨st1, info⟩ := p
          exact (ih st1 (acc ++ [info]) h).trans
            (uploadOne_uploadedFiles now f st st1 info hu)
      | error e2 => rfl

/-- A successful single-file upload against a ready runtime: the bytes
overwrite the MEMFS entry for that name and the new info is appended to
`uploadedFiles`. -/
theorem handleFileUpload_single_ready (now : Nat) (f : FileModel) (st : AppState)
    (rt : Runtime) (dt : List (String × String)) (hp : st.pyodide = some rt)
    (he : endsWithStr (lowerStr f.name) ".csv" = true)
    (hs : ¬ f.size > 10 * 1024 * 1024)
    (hd : inferDtypesOfFile f.content = Except.ok dt) :
    handleFileUpload now [f] st
      = ({ st with
            pyodide := some { rt with fs := setKey rt.fs f.name f.content },
            uploadedFiles := st.uploadedFiles
              ++ [{ name := f.name, size := f.size, mime := f.mime, dtypes := dt, uploadedAt := now }] },
         none) := by
  unfold handleFileUpload
  simp [uploadLoop, uploadOne, he, hs, hd, hp]

/-- Projection of `handleFileUpload_single_ready` onto the state. -/
theorem handleFileUpload_single_ready_state (now : Nat) (f : FileModel)
    (st : AppState) (rt : Runtime) (dt : List (String × String))
    (hp : st.pyodide = some rt)
    (he : endsWithStr (lowerStr f.name) ".csv" = true)
    (hs : ¬ f.size > 10 * 1024 * 1024)
    (hd : inferDtypesOfFile f.content = Except.ok dt) :
    (handleFileUpload now [f] st).1
      = { st with
            pyodide := some { rt with fs := setKey rt.fs f.name f.content },
            uploadedFiles := st.uploadedFiles
              ++ [{ name := f.name, size := f.size, mime := f.mime, dtypes := dt, uploadedAt := now }] } := by
  rw [handleFileUpload_single_ready now f st rt dt hp he hs hd]

/-- Resolving the first entry of an association list after an overwrite. -/
theorem lookupKey_setKey {α : Type} (l : List (String × α)) (k : String) (v : α) :
    lookupKey (setKey l k v) k = some v := by
  induction l with
  | nil => simp [setKey, lookupKey]
  | cons p rest ih =>
      by_cases h : p.1 = k
      · simp [setKey, h, lookupKey]
      · cases p with
        | mk k1 v1 => simp [setKey, lookupKey, h] at *; exact ih

/-! ### The claims -/

/-- C1: for every call to `executeAnalysis` that reaches code execution
(the planner returned `execute_command` with non-empty code), the
runtime's stdout and stderr are restored to their pre-execution targets
after the execution attempt — for every behaviour of the executed code,
so both when it completes and when it raises. -/
theorem c1_stdio_restored (bhvOf : String → CodeBehavior)
    (result : AssistantResponse) (cmd : PythonCommand) (st : AppState)
    (rt : Runtime) (hp : st.pyodide = some rt)
    (hf : st.uploadedFiles.isEmpty = false)
    (hn : result.next_step = NextStep.execute_command)
    (hc : result.command = some cmd) (hcode : cmd.code ≠ "") :
    ((executeAnalysis bhvOf (ApiResponse.ok result) st).1.pyodide.map
        Runtime.stdoutSink = some rt.stdoutSink) ∧
    ((executeAnalysis bhvOf (ApiResponse.ok result) st).1.pyodide.map
        Runtime.stderrSink = some rt.stderrSink) := by
  unfold executeAnalysis
  rw [hp]
  simp only [hf, Bool.false_eq_true, if_false]
  unfold runVerdict
  rw [hn, hc]
  simp [hcode, executePhase_stdoutSink, executePhase_stderrSink]

theorem c1_stdio_restored_witness :
    ((executeAnalysis (fun _ => raisingBhv) (ApiResponse.ok execResponse)
        readyState).1.pyodide.map Runtime.stdoutSink = some Sink.original) ∧
    ((executeAnalysis (fun _ => raisingBhv) (ApiResponse.ok execResponse)
        readyState).1.pyodide.map Runtime.stderrSink = some Sink.original) :=
  c1_stdio_restored _ execResponse _ readyState initRuntime rfl rfl rfl rfl
    (by decide)

/-- C2 as claimed fails: the `getvalue()` reads sit after the code call,
so when the code raises the local `output` still holds its initial `''`
and the error result discards the captured text. This theorem exhibits
the divergence: the code prints `hello` (which lands in the capture
buffer) and then raises `boom`; the assembled result has status `error`
and the exception message, but its output is `""`, not the `"hello"`
captured before the throw. -/
theorem c2_captured_output_discarded :
    ((executePhase { effects := [Effect.print "hello"], raises := some "boom" }
        none initRuntime).1.status = Status.error) ∧
    ((executePhase { effects := [Effect.print "hello"], raises := some "boom" }
        none initRuntime).1.error = some "boom") ∧
    ((executePhase { effects := [Effect.print "hello"], raises := some "boom" }
        none initRuntime).1.output = some "") ∧
    ((applyEffects (redirectStdio initRuntime) [Effect.print "hello"]).capturedOut
      = "hello") :=
  ⟨rfl, rfl, rfl, rfl⟩

/-- C3 counterexample: the figure-registry check sits inside the `try`
block after the code call, so when the code raises it never runs. Here
the code opens figure 1 and then raises: after the execution attempt no
chart was produced and figure 1 is still open in the runtime, so a
figure does remain open into the next invocation — refuting the claim. -/
theorem c3_counterexample :
    ((executePhase { effects := [Effect.plot 1], raises := some "x" }
        none initRuntime).2.figs = [1]) ∧
    ((executePhase { effects := [Effect.plot 1], raises := some "x" }
        none initRuntime).1.chartData = none) :=
  ⟨rfl, rfl⟩

/-- C3 (amended): the active-figure registry is queried only when the
executed code completes without raising; in that case, if any figure is
open the most recent is rendered to an encoded raster image and all open
figures are closed, and otherwise no chart is produced; when the code
raises, the registry is not queried, no chart is produced, and whatever
figures the code opened remain open into the next invocation. -/
theorem c3_figures_amended (bhv : CodeBehavior) (fname : Option String)
    (rt : Runtime) :
    (bhv.raises = none →
      (executePhase bhv fname rt).2.figs = [] ∧
      ((applyEffects (redirectStdio rt) bhv.effects).figs = [] →
        (executePhase bhv fname rt).1.chartData = none) ∧
      ((applyEffects (redirectStdio rt) bhv.effects).figs ≠ [] →
        (executePhase bhv fname rt).1.chartData = some (renderFig
          (((applyEffects (redirectStdio rt) bhv.effects).figs.getLast?).getD 0)))) ∧
    (∀ msg, bhv.raises = some msg →
      (executePhase bhv fname rt).2.figs
          = (applyEffects (redirectStdio rt) bhv.effects).figs ∧
      (executePhase bhv fname rt).1.chartData = none) := by
  constructor
  · intro hraise
    unfold executePhase
    rw [hraise]
    cases hfigs : (applyEffects (redirectStdio rt) bhv.effects).figs with
    | nil => simp [figureStep, hfigs, restoreStdio]
    | cons a t => simp [figureStep, hfigs, restoreStdio]
  · intro msg hraise
    unfold executePhase
    rw [hraise]
    exact ⟨rfl, rfl⟩

theorem c3_figures_amended_witness :
    ((executePhase { effects := [Effect.plot 1], raises := none }
        none initRuntime).2.figs = []) ∧
    ((executePhase { effects := [Effect.plot 1], raises := some "x" }
        none initRuntime).2.figs
      = (applyEffects (redirectStdio initRuntime) [Effect.plot 1]).figs) :=
  ⟨((c3_figures_amended { effects := [Effect.plot 1], raises := none }
      none initRuntime).1 rfl).1,
   ((c3_figures_amended { effects := [Effect.plot 1], raises := some "x" }
      none initRuntime).2 "x" rfl).1⟩

/-- C4 fails on the code: `handleFileDelete` never touches the pending
queue, so a file deleted while the runtime is not yet ready is still
flushed into the filesystem bridge when initialisation completes.
Concretely: before readiness, upload `a.csv` (buffered as a pending
file), delete it (the `UploadedFileInfo` disappears), then finish
initialisation — `a.csv` reappears in MEMFS although it was deleted. -/
theorem c4_deleted_pending_flushed :
    ((handleFileDelete "a.csv" (handleFileUpload 0 [csvFile] initState).1).uploadedFiles
      = []) ∧
    ((handleFileDelete "a.csv" (handleFileUpload 0 [csvFile] initState).1).pendingFiles
      = [("a.csv", "city,age\nBeijing,30")]) ∧
    ((finishInitialize (handleFileDelete "a.csv"
        (handleFileUpload 0 [csvFile] initState).1)).pyodide.map Runtime.fs
      = some [("a.csv", "city,age\nBeijing,30")]) :=
  ⟨rfl, rfl, rfl⟩

/-- C5 counterexample: a multi-file call whose second file fails the
extension check still writes the first (valid) file's bytes into the
filesystem bridge before the throw — the ValidationError is raised, no
`UploadedFileInfo` is registered, yet state was mutated and the runtime
was touched, refuting "mutates no state" as universally claimed. -/
theorem c5_counterexample :
    ((handleFileUpload 0 [csvFile, badTxt] readyEmptyState).2
      = some "只支持CSV文件格式") ∧
    ((handleFileUpload 0 [csvFile, badTxt] readyEmptyState).1.pyodide.map Runtime.fs
      = some [("a.csv", "city,age\nBeijing,30")]) ∧
    ((handleFileUpload 0 [csvFile, badTxt] readyEmptyState).1.uploadedFiles = []) :=
  ⟨rfl, rfl, rfl⟩

/-- C5 (amended): a ValidationError on the first file of an upload call
(bad extension or oversize) is rejected before touching the runtime with
no state mutated at all; any failing upload call registers no
`UploadedFileInfo`; and a submission with an unready runtime or zero
staged files returns with no planner call and no state change. (What the
original claim missed: in a multi-file call, files processed before the
failing one have already had their bytes written to the bridge or
pending queue, as the counterexample shows.) -/
theorem c5_validation_amended :
    (∀ now (f : FileModel) rest st, endsWithStr (lowerStr f.name) ".csv" = false →
        handleFileUpload now (f :: rest) st = (st, some "只支持CSV文件格式")) ∧
    (∀ now (f : FileModel) rest st, endsWithStr (lowerStr f.name) ".csv" = true →
        f.size > 10 * 1024 * 1024 →
        handleFileUpload now (f :: rest) st = (st, some "文件大小不能超过10MB")) ∧
    (∀ now files st e, (handleFileUpload now files st).2 = some e →
        (handleFileUpload now files st).1.uploadedFiles = st.uploadedFiles) ∧
    (∀ bhvOf resp st, st.pyodide = none →
        executeAnalysis bhvOf resp st
          = (st, { plannerCalled := false, codeRan := false })) ∧
    (∀ bhvOf resp st, st.uploadedFiles = [] →
        executeAnalysis bhvOf resp st
          = (st, { plannerCalled := false, codeRan := false })) := by
  refine ⟨?_, ?_, ?_, ?_, ?_⟩
  · intro now f rest st he
    unfold handleFileUpload
    simp [uploadLoop, uploadOne, he]
  · intro now f rest st he hs
    unfold handleFileUpload
    simp [uploadLoop, uploadOne, he, hs]
  · intro now files st e h
    exact uploadLoop_error_uploadedFiles now files st [] e h
  · intro bhvOf resp st hp
    unfold executeAnalysis
    rw [hp]
  · intro bhvOf resp st hf
    unfold executeAnalysis
    cases hp : st.pyodide with
    | none => rfl
    | some rt => simp [hf]

theorem c5_validation_amended_witness :
    handleFileUpload 0 [badTxt] initState = (initState, some "只支持CSV文件格式") :=
  c5_validation_amended.1 0 badTxt [] initState rfl

/-- C6: with the preconditions met, the coordinator branches on the
planner's verdict: `need_more_info` and `out_of_scope` produce a result
carrying that status and the planner's message verbatim with no code
run; `execute_command` with a missing command or empty code string
produces the error result "系统无法生成分析代码" with no code run. -/
theorem c6_verdict_branches (bhvOf : String → CodeBehavior)
    (result : AssistantResponse) (st : AppState) (rt : Runtime)
    (hp : st.pyodide = some rt) (hf : st.uploadedFiles.isEmpty = false) :
    (result.next_step = NextStep.need_more_info →
      executeAnalysis bhvOf (ApiResponse.ok result) st
        = ({ st with analysisResult := some (mkMessageResult Status.need_more_info result.message) },
           { plannerCalled := true, codeRan := false })) ∧
    (result.next_step = NextStep.out_of_scope →
      executeAnalysis bhvOf (ApiResponse.ok result) st
        = ({ st with analysisResult := some (mkMessageResult Status.out_of_scope result.message) },
           { plannerCalled := true, codeRan := false })) ∧
    (result.next_step = NextStep.execute_command →
      (result.command = none ∨ ∃ cmd, result.command = some cmd ∧ cmd.code = "") →
      executeAnalysis bhvOf (ApiResponse.ok result) st
        = ({ st with analysisResult := some (mkErrorResult "系统无法生成分析代码") },
           { plannerCalled := true, codeRan := false })) := by
  unfold executeAnalysis
  rw [hp]
  simp only [hf, Bool.false_eq_true, if_false]
  refine ⟨?_, ?_, ?_⟩
  · intro hn
    unfold runVerdict
    rw [hn]
  · intro hn
    unfold runVerdict
    rw [hn]
  · intro hn hcmd
    unfold runVerdict
    rw [hn]
    rcases hcmd with hnone | ⟨cmd, hsome, hcode⟩
    · rw [hnone]
    · rw [hsome]
      simp [hcode]

theorem c6_verdict_branches_witness :
    executeAnalysis (fun _ => raisingBhv) (ApiResponse.ok infoResponse) readyState
      = ({ readyState with analysisResult := some (mkMessageResult Status.need_more_info "需要更多信息") },
         { plannerCalled := true, codeRan := false }) :=
  (c6_verdict_branches (fun _ => raisingBhv) infoResponse readyState initRuntime
    rfl rfl).1 rfl

/-- C7: column-type inference is a deterministic function of the first
8 KB of the file (equal sampled prefixes give equal maps); the header and
exactly one sample row are parsed; each column is classified from its
sample value — numeric parse without a decimal point → `int64`, with a
decimal point → `float64`, case-insensitive `true`/`false` → `bool`,
anything else → `string`; and the `city,age` / `Beijing,30` file yields
`{city: string, age: int64}`. -/
theorem c7_dtype_inference :
    (∀ c1 c2 : String, takeStr 8192 c1 = takeStr 8192 c2 →
        inferDtypesOfFile c1 = inferDtypesOfFile c2) ∧
    (inferDtypesOfFile "city,age\nBeijing,30"
      = Except.ok [("city", "string"), ("age", "int64")]) ∧
    (∀ v, jsNumeric v = true → containsChar v '.' = false → classify v = "int64") ∧
    (∀ v, jsNumeric v = true → containsChar v '.' = true → classify v = "float64") ∧
    (∀ v, jsNumeric v = false → (lowerStr v = "true" ∨ lowerStr v = "false") →
        classify v = "bool") ∧
    (∀ v, jsNumeric v = false → lowerStr v ≠ "true" → lowerStr v ≠ "false" →
        classify v = "string") := by
  refine ⟨?_, rfl, ?_, ?_, ?_, ?_⟩
  · intro c1 c2 h
    unfold inferDtypesOfFile
    rw [h]
  · intro v h1 h2
    simp [classify, h1, h2]
  · intro v h1 h2
    simp [classify, h1, h2]
  · intro v h1 h2
    rcases h2 with h2 | h2 <;> simp [classify, h1, h2]
  · intro v h1 h2 h3
    simp [classify, h1, h2, h3]

theorem c7_dtype_inference_witness :
    (inferDtypesOfFile "city,age\nBeijing,30"
      = inferDtypesOfFile "city,age\nBeijing,30") ∧
    classify "30" = "int64" ∧ classify "3.5" = "float64" ∧
    classify "TRUE" = "bool" ∧ classify "Beijing" = "string" :=
  ⟨c7_dtype_inference.1 "city,age\nBeijing,30" "city,age\nBeijing,30" rfl,
   c7_dtype_inference.2.2.1 "30" (by decide) (by decide),
   c7_dtype_inference.2.2.2.1 "3.5" (by decide) (by decide),
   c7_dtype_inference.2.2.2.2.1 "TRUE" (by decide) (Or.inl (by decide)),
   c7_dtype_inference.2.2.2.2.2 "Beijing" (by decide) (by decide) (by decide)⟩

/-- C8: when the code completes but the planner-declared output filename
is absent from the filesystem bridge, the request does not fail — the
result keeps status `success`, carries no output-file artifact, and the
captured output text is extended with the warning "读取输出文件失败". -/
theorem c8_missing_output_file (bhv : CodeBehavior) (n : String) (rt : Runtime)
    (hdone : bhv.raises = none)
    (habs : lookupKey (applyEffects (redirectStdio rt) bhv.effects).fs n = none) :
    ((executePhase bhv (some n) rt).1.status = Status.success) ∧
    ((executePhase bhv (some n) rt).1.outputFile = none) ∧
    ((executePhase bhv (some n) rt).1.output
      = some ((applyEffects (redirectStdio rt) bhv.effects).capturedOut
          ++ (applyEffects (redirectStdio rt) bhv.effects).capturedErr
          ++ "\n读取输出文件失败")) := by
  unfold executePhase
  rw [hdone]
  have hfs : (figureStep (applyEffects (redirectStdio rt) bhv.effects)).2.fs
      = (applyEffects (redirectStdio rt) bhv.effects).fs := figureStep_fs _
  simp [outputFileStep, hfs, habs]

theorem c8_missing_output_file_witness :
    ((executePhase okBhv (some "out.csv") initRuntime).1.status = Status.success) ∧
    ((executePhase okBhv (some "out.csv") initRuntime).1.outputFile = none) ∧
    ((executePhase okBhv (some "out.csv") initRuntime).1.output
      = some ((applyEffects (redirectStdio initRuntime) okBhv.effects).capturedOut
          ++ (applyEffects (redirectStdio initRuntime) okBhv.effects).capturedErr
          ++ "\n读取输出文件失败")) :=
  c8_missing_output_file okBhv "out.csv" initRuntime rfl rfl

/-- C9 counterexample: uploading the same file twice leaves two
`UploadedFileInfo` entries with the same name in `uploadedFiles` —
`setUploadedFiles(prev => [...prev, ...newFiles])` appends and never
deduplicates, refuting "at most one UploadedFileInfo per name". -/
theorem c9_counterexample :
    (((handleFileUpload 1 [csvFile]
        (handleFileUpload 0 [csvFile] readyEmptyState).1).1.uploadedFiles.filter
          (fun u => u.name = "a.csv")).length = 2) := by decide

/-- C9 (amended): the filesystem bridge and the pending queue are keyed
by filename, so re-uploading an accepted name overwrites the stored
bytes; but the `UploadedFileInfo` list is append-only — each successful
upload appends its entry, so re-uploading a name accumulates a duplicate
entry instead of overwriting the existing one. -/
theorem c9_upload_namespace (now1 now2 : Nat) (f g : FileModel) (st : AppState)
    (rt : Runtime) (dtf dtg : List (String × String))
    (hp : st.pyodide = some rt) (hname : g.name = f.name)
    (hfe : endsWithStr (lowerStr f.name) ".csv" = true)
    (hge : endsWithStr (lowerStr g.name) ".csv" = true)
    (hfs : ¬ f.size > 10 * 1024 * 1024) (hgs : ¬ g.size > 10 * 1024 * 1024)
    (hdf : inferDtypesOfFile f.content = Except.ok dtf)
    (hdg : inferDtypesOfFile g.content = Except.ok dtg) :
    (((handleFileUpload now2 [g] (handleFileUpload now1 [f] st).1).1.pyodide.map Runtime.fs)
      = some (setKey (setKey rt.fs f.name f.content) f.name g.content)) ∧
    (lookupKey (setKey (setKey rt.fs f.name f.content) f.name g.content) f.name
      = some g.content) ∧
    ((handleFileUpload now2 [g] (handleFileUpload now1 [f] st).1).1.uploadedFiles
      = st.uploadedFiles
        ++ [{ name := f.name, size := f.size, mime := f.mime, dtypes := dtf, uploadedAt := now1 }]
        ++ [{ name := g.name, size := g.size, mime := g.mime, dtypes := dtg, uploadedAt := now2 }]) ∧
    (((handleFileUpload now2 [g] (handleFileUpload now1 [f] st).1).1.uploadedFiles.filter
        (fun u => u.name = f.name)).length
      = (st.uploadedFiles.filter (fun u => u.name = f.name)).length + 2) := by
  have e1 := handleFileUpload_single_ready_state now1 f st rt dtf hp hfe hfs hdf
  have e2 := handleFileUpload_single_ready_state now2 g
    ((handleFileUpload now1 [f] st).1)
    { rt with fs := setKey rt.fs f.name f.content } dtg (by rw [e1]) hge hgs hdg
  refine ⟨?_, lookupKey_setKey _ _ _, ?_, ?_⟩
  · rw [e2, e1]
    simp [hname]
  · rw [e2, e1]
  · rw [e2, e1]
    simp [List.filter_append, hname]

theorem c9_upload_namespace_witness :
    ((handleFileUpload 1 [csvFile] (handleFileUpload 0 [csvFile] readyEmptyState).1).1.uploadedFiles.filter
        (fun u => u.name = csvFile.name)).length
      = ((readyEmptyState.uploadedFiles.filter (fun u => u.name = csvFile.name)).length + 2) :=
  (c9_upload_namespace 0 1 csvFile csvFile readyEmptyState initRuntime
    [("city", "string"), ("age", "int64")] [("city", "string"), ("age", "int64")]
    rfl rfl (by decide) (by decide) (by decide) (by decide) (by rfl) (by rfl)).2.2.2

/-- C10 (implicit): a `.csv` upload within the size limit whose first
8 KB hold fewer than two non-blank lines is rejected by `inferDtypes`
("文件格式错误或为空") before any byte is written: the state is returned
exactly as it was — no `UploadedFileInfo`, no filesystem-bridge write, no
pending-queue entry. -/
theorem c10_too_few_lines_rejected (now : Nat) (f : FileModel) (st : AppState)
    (he : endsWithStr (lowerStr f.name) ".csv" = true)
    (hs : ¬ f.size > 10 * 1024 * 1024)
    (hl : ((splitChar '\n' (takeStr 8192 f.content)).filter
        (fun l => jsTrim l ≠ "")).length < 2) :
    handleFileUpload now [f] st = (st, some "文件格式错误或为空") := by
  unfold handleFileUpload
  have hd : inferDtypesOfFile f.content = Except.error "文件格式错误或为空" := by
    unfold inferDtypesOfFile inferDtypes
    exact if_pos hl
  simp [uploadLoop, uploadOne, he, hs, hd]

theorem c10_too_few_lines_rejected_witness :
    handleFileUpload 0 [headerOnlyCsv] initState
      = (initState, some "文件格式错误或为空") :=
  c10_too_few_lines_rejected 0 headerOnlyCsv initState (by decide) (by decide)
    (by decide)

end Datalab
